import Mathlib

/-!
Verification of the BigQuery staged bulk-load cache processor
(`airbyte/_processors/sql/bigquery.py`) against its specification.

The Python module is shallowly embedded: each method becomes a Lean
function over explicit state; warehouse I/O (SQL execution, bulk-load
jobs) is represented either by the list of submitted commands/events or
by an environment-supplied outcome, so that the control flow of the
Python code is mirrored faithfully.
-/

namespace BigQueryProc

/-- The Python exceptions raised by the module (from `airbyte.exceptions`). -/
inductive PyErr where
  | PyAirbyteInternalError (message : String)
  deriving DecidableEq, Repr

/-- A SQL statement submitted through `_execute_sql`, restricted to the
statement shapes this module builds.  `render` below gives the exact text
the Python code formats. -/
inductive SqlCommand where
  | alterTableRename (schema old new : String)
  | dropTable (schema name : String)
  deriving DecidableEq, Repr

/-- `BigQuerySqlProcessor._fully_qualified`:
`f"`{self.cache.schema_name}`.`{table_name!s}`"`. -/
def fully_qualified (schema_name table_name : String) : String :=
  "`" ++ schema_name ++ "`.`" ++ table_name ++ "`"

/-- The exact SQL text the Python code formats for each command
(the BigQuery ALTER names the schema only on the old table). -/
def SqlCommand.render : SqlCommand → String
  | .alterTableRename sch old new =>
      "ALTER TABLE " ++ fully_qualified sch old ++ " RENAME TO " ++ new ++ ";"
  | .dropTable sch n =>
      "DROP TABLE " ++ fully_qualified sch n ++ ";"

/-- `BigQuerySqlProcessor._swap_temp_table_with_final_table`, embedded as the
list of statements it submits in one `_execute_sql` call (joined by newlines
in the source), or the error it raises before submitting anything.
The `None` checks mirror the source's two guard clauses, in source order. -/
def swap_temp_table_with_final_table (schema_name : String)
    (temp_table_name final_table_name : Option String) :
    Except PyErr (List SqlCommand) :=
  match final_table_name with
  | none => .error (.PyAirbyteInternalError "Arg 'final_table_name' cannot be None.")
  | some final =>
    match temp_table_name with
    | none => .error (.PyAirbyteInternalError "Arg 'temp_table_name' cannot be None.")
    | some temp =>
      let deletion_name := final ++ "_deleteme"
      .ok [ .alterTableRename schema_name final deletion_name,
            .alterTableRename schema_name temp final,
            .dropTable schema_name deletion_name ]

/-- Warehouse state within one schema: tables by (unqualified) name, each
holding abstract content identified by a `Nat`. -/
abbrev TableState := List (String × Nat)

def lookup_table : TableState → String → Option Nat
  | [], _ => none
  | (m, d) :: rest, n => if m = n then some d else lookup_table rest n

/-- BigQuery semantics of `ALTER TABLE old RENAME TO new`: errors when `old`
is absent or `new` already exists. -/
def rename_table (s : TableState) (old new : String) : Option TableState :=
  match lookup_table s old with
  | none => none
  | some _ =>
    match lookup_table s new with
    | some _ => none
    | none => some (s.map fun p => if p.1 = old then (new, p.2) else p)

/-- BigQuery semantics of `DROP TABLE n`: errors when `n` is absent. -/
def drop_table (s : TableState) (n : String) : Option TableState :=
  match lookup_table s n with
  | none => none
  | some _ => some (s.filter fun p => ¬ (p.1 = n))

def apply_command (s : TableState) : SqlCommand → Option TableState
  | .alterTableRename _ old new => rename_table s old new
  | .dropTable _ n => drop_table s n

/-- Execute a statement list in order; a failing statement aborts the rest. -/
def run_commands : TableState → List SqlCommand → Option TableState
  | s, [] => some s
  | s, c :: cs =>
    match apply_command s c with
    | none => none
    | some s' => run_commands s' cs

/-- The observable effect of one call to
`_swap_temp_table_with_final_table` against a warehouse in state `s`:
either the Python error (raised before any SQL is submitted) or the
result of executing the submitted statements. -/
def swap_effect (s : TableState) (schema_name : String)
    (temp_table_name final_table_name : Option String) :
    Except PyErr (Option TableState) :=
  (swap_temp_table_with_final_table schema_name temp_table_name final_table_name).map
    (run_commands s)

/-! ### Schema existence (`_ensure_schema_exists`) -/

/-- `needle in haystack` over character lists (Python's substring test). -/
def contains_substr (needle : List Char) : List Char → Bool
  | [] => needle.isEmpty
  | c :: rest => needle.isPrefixOf (c :: rest) || contains_substr needle rest

/-- Python's `needle in str(ex)` substring containment on strings. -/
def str_contains (haystack needle : String) : Bool :=
  contains_substr needle.toList haystack.toList

/-- What the warehouse does with the one `_execute_sql` call
(`CREATE SCHEMA IF NOT EXISTS …`): either it succeeds, or it raises an
exception whose `str(ex)` is `message`.  Supplied by the environment. -/
inductive ExecOutcome where
  | success
  | failure (message : String)
  deriving DecidableEq, Repr

/-- Observable result of one `_ensure_schema_exists` call. -/
structure EnsureResult where
  /-- the `self._schema_exists` memo after the call
  (initialized to `None` in `__init__`, so `Option Bool`) -/
  newMemo : Option Bool
  /-- whether `_execute_sql` was actually called (real I/O performed) -/
  executed : Bool
  /-- the message of the exception propagated to the caller, if any -/
  raised : Option String
  deriving DecidableEq, Repr

/-- `BigQuerySqlProcessor._ensure_schema_exists`: returns immediately when
the memo is truthy; otherwise submits `CREATE SCHEMA IF NOT EXISTS`,
swallows any exception whose message contains "already exists", re-raises
any other exception (leaving the memo untouched), and sets the memo true
on every non-raising path. -/
def ensure_schema_exists (memo : Option Bool) (outcome : ExecOutcome) :
    EnsureResult :=
  if memo = some true then
    { newMemo := memo, executed := false, raised := none }
  else
    match outcome with
    | .success => { newMemo := some true, executed := true, raised := none }
    | .failure msg =>
      if str_contains msg "already exists" then
        { newMemo := some true, executed := true, raised := none }
      else
        { newMemo := memo, executed := true, raised := some msg }

/-- Iterate `_ensure_schema_exists` over a sequence of calls on one
processor instance; `outcomes.length` is the number of calls, each entry
being what `_execute_sql` would do if that call reaches it.  Returns the
final memo, the number of calls that performed I/O, and the number of
calls that raised. -/
def ensure_schema_exists_iter :
    Option Bool → List ExecOutcome → Option Bool × Nat × Nat
  | memo, [] => (memo, 0, 0)
  | memo, o :: os =>
    let r := ensure_schema_exists memo o
    let rest := ensure_schema_exists_iter r.newMemo os
    (rest.1,
     (if r.executed then 1 else 0) + rest.2.1,
     (if r.raised.isSome then 1 else 0) + rest.2.2)

/-- An `_execute_sql` outcome on which the "already exists" condition
cannot fail the call: success, or a duplicate-schema error. -/
def benign_outcome : ExecOutcome → Prop
  | .success => True
  | .failure msg => str_contains msg "already exists" = true

/-! ### Type conversion (`BigQueryTypeConverter`) -/

/-- A source column's type descriptor: the JSON-schema kind of the
property definition handed to `to_sql_type` (nested kinds collapsed to
their markers). -/
inductive ColumnTypeDescriptor where
  | string | integer | number | boolean | date | timestamp
  | object | array | unknown
  deriving DecidableEq, Repr

/-- The sqlalchemy generic types the base converter can return. -/
inductive GenericSqlType where
  | VARCHAR | BIGINT | DECIMAL | BOOLEAN | DATE | TIMESTAMP | JSON
  deriving DecidableEq, Repr

/-- Modelled from the spec: `SQLTypeConverter.to_sql_type` (the base class
in `airbyte/types.py`, not part of the sources here) applies a
dialect-neutral best-effort mapping — string-like kinds to the generic
string type, integer-like kinds to the generic wide-integer type, etc. —
and unrecognized/exotic kinds fall back to the most permissive generic
(string) type. -/
def SQLTypeConverter.to_sql_type : ColumnTypeDescriptor → GenericSqlType
  | .string => .VARCHAR
  | .integer => .BIGINT
  | .number => .DECIMAL
  | .boolean => .BOOLEAN
  | .date => .DATE
  | .timestamp => .TIMESTAMP
  | .object => .JSON
  | .array => .JSON
  | .unknown => .VARCHAR

/-- The sqlalchemy class name of a generic type
(Python `sql_type.__class__.__name__`). -/
def GenericSqlType.className : GenericSqlType → String
  | .VARCHAR => "VARCHAR"
  | .BIGINT => "BIGINT"
  | .DECIMAL => "DECIMAL"
  | .BOOLEAN => "BOOLEAN"
  | .DATE => "DATE"
  | .TIMESTAMP => "TIMESTAMP"
  | .JSON => "JSON"

/-- `BigQueryTypeConverter.get_string_type`: returns `"String"`. -/
def BigQueryTypeConverter.get_string_type : String := "String"

/-- `BigQueryTypeConverter.to_sql_type`: call the parent converter, then
replace `VARCHAR` with BigQuery's string type and `BIGINT` with
`"INT64"`; any other type is rendered by its class name. -/
def BigQueryTypeConverter.to_sql_type (d : ColumnTypeDescriptor) : String :=
  let sql_type := SQLTypeConverter.to_sql_type d
  match sql_type with
  | .VARCHAR => BigQueryTypeConverter.get_string_type
  | .BIGINT => "INT64"
  | t => t.className

/-! ### Credentials (`_get_credentials`) -/

/-- The environment's two credential sources: what
`service_account.Credentials.from_service_account_file(path)` and
`google.auth.default()` would each hand back (credentials are opaque
handles, modelled as `Nat`). -/
structure CredEnv where
  from_service_account_file : String → Nat
  google_auth_default : Nat

/-- Python truthiness of `self.cache.credentials_path`
(an `Optional[str]`: `None` and `""` are falsy). -/
def path_truthy : Option String → Bool
  | none => false
  | some p => ¬ (p = "")

/-- `BigQuerySqlProcessor._get_credentials`: resolve lazily and memoize on
`self._credentials`.  Returns the credentials handed back, the new memo,
and whether a credential source was touched. -/
def get_credentials (env : CredEnv) (credentials_path : Option String)
    (cached : Option Nat) : Nat × Option Nat × Bool :=
  match cached with
  | some c => (c, some c, false)
  | none =>
    let c :=
      if path_truthy credentials_path then
        env.from_service_account_file (credentials_path.getD "")
      else
        env.google_auth_default
    (c, some c, true)

/-! ### Bulk load (`_write_files_to_new_table`) -/

/-- A closed record file handed in by the file writer: a path and its
(opaque) newline-delimited JSON content. -/
structure FileHandle where
  path : String
  content : String
  deriving DecidableEq, Repr

/-- The externally observable operations `_write_files_to_new_table`
performs against the warehouse, in order. -/
inductive LoadEvent where
  /-- `_create_table_for_loading`: the staging table is created -/
  | createTable (table_id : String)
  /-- `client.load_table_from_file(file_obj=…, destination=…, job_config=…)`:
  a bulk-load job is submitted with the given source file, source format,
  and explicit column schema (`SchemaField(name, field_type=str(type_))`) -/
  | submitLoad (table_id : String) (file_obj : FileHandle)
      (source_format : String) (schema : List (String × String))
  /-- `load_job.result()`: wait for this file's job to reach a terminal state -/
  | waitResult (file_obj : FileHandle)
  deriving DecidableEq, Repr

/-- Modelled from the spec: `_create_table_for_loading` (generic base
class, not in the sources here) derives a staging-table name
deterministic in `(stream, batchId)` and creates the staging table with
the converted column set.  Only determinism in its two inputs matters to
the claims; the concrete shape is a representative choice. -/
def create_table_for_loading (stream_name batch_id : String) : String :=
  stream_name ++ "_airbyte_tmp_" ++ batch_id

/-- Modelled from the spec: `_get_sql_column_definitions` (generic base
class, not in the sources here) maps the stream's known column
descriptors through the processor's type converter, preserving order. -/
def get_sql_column_definitions
    (columns : List (String × ColumnTypeDescriptor)) :
    List (String × String) :=
  columns.map fun p => (p.1, BigQueryTypeConverter.to_sql_type p.2)

/-- `BigQuerySqlProcessor._write_files_to_new_table`: create the staging
table, then for each file in order submit a bulk-load job with the
explicit converted schema and wait for its result; finally return the
staging table name.  The event list is the ordered trace of warehouse
operations; the function returns only after the last event. -/
def write_files_to_new_table (project_name dataset_name : String)
    (columns : List (String × ColumnTypeDescriptor))
    (files : List FileHandle) (stream_name batch_id : String) :
    String × List LoadEvent :=
  let temp_table_name := create_table_for_loading stream_name batch_id
  let table_id := project_name ++ "." ++ dataset_name ++ "." ++ temp_table_name
  let schema := get_sql_column_definitions columns
  (temp_table_name,
   LoadEvent.createTable table_id ::
     files.flatMap fun f =>
       [LoadEvent.submitLoad table_id f "NEWLINE_DELIMITED_JSON" schema,
        LoadEvent.waitResult f])

/-! ### Table listing (`_get_tables_list`) -/

/-- Python `s.replace(old, new, 1)` over character lists: replace the
first (leftmost) occurrence of `old` in `s` by `new`. -/
def replace_first (new old : List Char) : List Char → List Char
  | [] => []
  | c :: rest =>
    if old.isPrefixOf (c :: rest) then new ++ (c :: rest).drop old.length
    else c :: replace_first new old rest

/-- `BigQuerySqlProcessor._get_tables_list`, applied to the names the
warehouse inspector returned (names as character lists):
`table.replace(schema_prefix, "", 1) if table.startswith(schema_prefix)
else table` for each table, where the prefix is `{schema_name}.`. -/
def get_tables_list (schema_name : List Char) (tables : List (List Char)) :
    List (List Char) :=
  tables.map fun table =>
    if (schema_name ++ ['.']).isPrefixOf table then
      replace_first [] (schema_name ++ ['.']) table
    else table

/-! ### Identifier quoting (`_quote_identifier`) -/

/-- Python `str.lower()` over a character list (identifiers here are
ASCII, for which `Char.toLower` agrees with Python). -/
def py_lower (s : List Char) : List Char := s.map Char.toLower

/-- `BigQuerySqlProcessor._quote_identifier`:
`f"`{identifier.lower()}`"` (identifier as a character list). -/
def quote_identifier (identifier : List Char) : List Char :=
  '`' :: py_lower identifier ++ ['`']

/-- Two identifiers differ only in letter case: same length, and the
characters agree position-by-position up to case folding. -/
def differ_only_in_case (a b : List Char) : Prop :=
  List.Forall₂ (fun c d => Char.toLower c = Char.toLower d) a b

/-! ## Theorems -/

/-- C2: `_swap_temp_table_with_final_table` fails with the internal-error
(invalid swap arguments) exception whenever either table identity is
`None`, and it raises before submitting any SQL: against any warehouse
state the observable effect is the raised error, never a statement. -/
theorem swap_none_args_raises_before_sql (schema_name : String)
    (temp_table_name final_table_name : Option String)
    (h : temp_table_name = none ∨ final_table_name = none) :
    ∃ msg,
      swap_temp_table_with_final_table schema_name temp_table_name final_table_name =
        .error (.PyAirbyteInternalError msg) ∧
      ∀ s : TableState,
        swap_effect s schema_name temp_table_name final_table_name =
          .error (.PyAirbyteInternalError msg) := by
  rcases final_table_name with _ | final
  · exact ⟨"Arg 'final_table_name' cannot be None.", rfl, fun _ => rfl⟩
  · rcases temp_table_name with _ | temp
    · exact ⟨"Arg 'temp_table_name' cannot be None.", rfl, fun _ => rfl⟩
    · rcases h with h | h <;> cases h

/-- Witness for C2 at a concrete input (`temp_table_name = None`). -/
theorem swap_none_args_raises_before_sql_witness :
    ∃ msg,
      swap_temp_table_with_final_table "main" none (some "users") =
        .error (.PyAirbyteInternalError msg) ∧
      ∀ s : TableState,
        swap_effect s "main" none (some "users") =
          .error (.PyAirbyteInternalError msg) :=
  swap_none_args_raises_before_sql "main" none (some "users") (Or.inl rfl)

/-- C1 counterexample: with only the staging table present (no table under
the final name — the first-ever load), the swap does NOT skip the
rename-away and drop steps: it still submits all three statements, and
executing them fails at the first statement, leaving no table named as
the final name with the staging data (the claimed skip-and-rename
behavior does not happen). -/
theorem swap_missing_final_counterexample :
    lookup_table [("users_airbyte_tmp_b1", 7)] "users" = none ∧
    swap_temp_table_with_final_table "main" (some "users_airbyte_tmp_b1") (some "users") =
      .ok [ .alterTableRename "main" "users" "users_deleteme",
            .alterTableRename "main" "users_airbyte_tmp_b1" "users",
            .dropTable "main" "users_deleteme" ] ∧
    swap_effect [("users_airbyte_tmp_b1", 7)] "main"
        (some "users_airbyte_tmp_b1") (some "users") = .ok none :=
  ⟨rfl, rfl, rfl⟩

/-- C1 (amended): for non-`None` arguments the swap unconditionally submits
the same three statements — rename final→deletion-name, rename
staging→final, drop deletion-name — with no first-ever-load special case;
when no table with the final name exists, executing the submitted
statements fails (at the first rename) instead of leaving the staging
data under the final name. -/
theorem swap_always_issues_three_statements
    (schema_name temp final : String) (s : TableState)
    (h : lookup_table s final = none) :
    swap_temp_table_with_final_table schema_name (some temp) (some final) =
      .ok [ .alterTableRename schema_name final (final ++ "_deleteme"),
            .alterTableRename schema_name temp final,
            .dropTable schema_name (final ++ "_deleteme") ] ∧
    swap_effect s schema_name (some temp) (some final) = .ok none := by
  refine ⟨rfl, ?_⟩
  simp [swap_effect, swap_temp_table_with_final_table, Except.map,
        run_commands, apply_command, rename_table, h]

/-- Witness for the amended C1 at a concrete input (empty warehouse). -/
theorem swap_always_issues_three_statements_witness :
    swap_temp_table_with_final_table "main" (some "users_airbyte_tmp_b2") (some "users") =
      .ok [ .alterTableRename "main" "users" "users_deleteme",
            .alterTableRename "main" "users_airbyte_tmp_b2" "users",
            .dropTable "main" "users_deleteme" ] ∧
    swap_effect [] "main" (some "users_airbyte_tmp_b2") (some "users") = .ok none :=
  swap_always_issues_three_statements "main" "users_airbyte_tmp_b2" "users" [] rfl

/-- Any call that reaches the `try` block (memo not yet true) performs the
real `_execute_sql` call. -/
theorem ensure_executes_of_memo_unset (memo : Option Bool) (o : ExecOutcome)
    (h : ¬ memo = some true) :
    (ensure_schema_exists memo o).executed = true := by
  cases o with
  | success => simp [ensure_schema_exists, if_neg h]
  | failure msg =>
    simp only [ensure_schema_exists, if_neg h]
    split <;> rfl

/-- Once the memo is true, every further call is a no-op: no I/O, no
raise, memo unchanged. -/
theorem ensure_iter_memo_true (os : List ExecOutcome) :
    ensure_schema_exists_iter (some true) os = (some true, 0, 0) := by
  induction os with
  | nil => rfl
  | cons o os ih =>
    simp [ensure_schema_exists_iter, ensure_schema_exists, ih]

/-- C3: when the creation command fails with a message containing
"already exists", the error is swallowed (nothing propagates) and the
memo is set true; for any other failure the error propagates, the memo
stays unset, and a subsequent call performs the real creation call
again. -/
theorem ensure_schema_swallow_or_propagate (msg : String) (o : ExecOutcome) :
    (str_contains msg "already exists" = true →
       ensure_schema_exists none (.failure msg) =
         { newMemo := some true, executed := true, raised := none }) ∧
    (str_contains msg "already exists" = false →
       ensure_schema_exists none (.failure msg) =
         { newMemo := none, executed := true, raised := some msg } ∧
       (ensure_schema_exists
           (ensure_schema_exists none (.failure msg)).newMemo o).executed = true) := by
  constructor
  · intro h
    simp [ensure_schema_exists, h]
  · intro h
    have hres : ensure_schema_exists none (.failure msg) =
        { newMemo := none, executed := true, raised := some msg } := by
      simp [ensure_schema_exists, h]
    refine ⟨hres, ?_⟩
    rw [hres]
    exact ensure_executes_of_memo_unset none o (by simp)

/-- Witness for C3 at concrete messages (a duplicate-schema message and a
network error), with a successful retry outcome. -/
theorem ensure_schema_swallow_or_propagate_witness :
    (ensure_schema_exists none (.failure "Dataset already exists: db") =
       { newMemo := some true, executed := true, raised := none }) ∧
    (ensure_schema_exists none (.failure "connection reset") =
       { newMemo := none, executed := true, raised := some "connection reset" } ∧
     (ensure_schema_exists
         (ensure_schema_exists none (.failure "connection reset")).newMemo
         .success).executed = true) :=
  ⟨(ensure_schema_swallow_or_propagate "Dataset already exists: db" .success).1 (by decide),
   (ensure_schema_swallow_or_propagate "connection reset" .success).2 (by decide)⟩

/-- C4: over any sequence of calls on one fresh instance in which the
warehouse either succeeds or reports "already exists", the real creation
command is issued exactly once when there is at least one call (zero times
for zero calls), no call raises, and the memo ends true after the first
call — so the remaining N−1 calls are short-circuited without I/O. -/
theorem ensure_schema_memoized_idempotent (outcomes : List ExecOutcome)
    (h : ∀ o ∈ outcomes, benign_outcome o) :
    (ensure_schema_exists_iter none outcomes).2.1 = min 1 outcomes.length ∧
    (ensure_schema_exists_iter none outcomes).2.2 = 0 ∧
    (ensure_schema_exists_iter none outcomes).1 =
      (if outcomes = [] then none else some true) := by
  cases outcomes with
  | nil => exact ⟨rfl, rfl, rfl⟩
  | cons o os =>
    have hb := h o (by simp)
    have h1 : ensure_schema_exists none o =
        { newMemo := some true, executed := true, raised := none } := by
      cases o with
      | success => rfl
      | failure msg =>
        simp only [benign_outcome] at hb
        simp [ensure_schema_exists, hb]
    simp [ensure_schema_exists_iter, h1, ensure_iter_memo_true]

/-- Witness for C4: three calls (create succeeds, then a racing duplicate
error, then success) issue exactly one real command and never raise. -/
theorem ensure_schema_memoized_idempotent_witness :
    (ensure_schema_exists_iter none
        [.success, .failure "Dataset already exists: db", .success]).2.1 =
      min 1 [ExecOutcome.success,
             .failure "Dataset already exists: db", .success].length ∧
    (ensure_schema_exists_iter none
        [.success, .failure "Dataset already exists: db", .success]).2.2 = 0 ∧
    (ensure_schema_exists_iter none
        [.success, .failure "Dataset already exists: db", .success]).1 =
      (if [ExecOutcome.success,
           .failure "Dataset already exists: db", .success] = ([] : List ExecOutcome)
       then none else some true) :=
  ensure_schema_memoized_idempotent
    [.success, .failure "Dataset already exists: db", .success]
    (by
      intro o ho
      simp only [List.mem_cons, List.mem_singleton] at ho
      rcases ho with rfl | rfl | rfl | h
      · exact trivial
      · exact rfl
      · exact trivial
      · cases h)

/-- C5: the BigQuery type converter is a total deterministic function of
the descriptor (it is a function, and repeated application yields the
same result), and it overrides the generic mapping: every descriptor the
base converter maps to (bounded) `VARCHAR` yields BigQuery's native
string type, and every descriptor the base maps to `BIGINT` yields
`"INT64"`. -/
theorem type_converter_pure_and_overrides (d : ColumnTypeDescriptor) :
    (BigQueryTypeConverter.to_sql_type d = BigQueryTypeConverter.to_sql_type d) ∧
    (SQLTypeConverter.to_sql_type d = .VARCHAR →
       BigQueryTypeConverter.to_sql_type d = BigQueryTypeConverter.get_string_type) ∧
    (SQLTypeConverter.to_sql_type d = .BIGINT →
       BigQueryTypeConverter.to_sql_type d = "INT64") := by
  refine ⟨rfl, ?_, ?_⟩ <;>
    · intro h
      cases d <;>
        simp_all [BigQueryTypeConverter.to_sql_type, SQLTypeConverter.to_sql_type]

/-- Witness for C5 at concrete descriptors: a string kind (generic
`VARCHAR`) yields the native string type, an integer kind (generic
`BIGINT`) yields `INT64`. -/
theorem type_converter_pure_and_overrides_witness :
    BigQueryTypeConverter.to_sql_type .string = BigQueryTypeConverter.get_string_type ∧
    BigQueryTypeConverter.to_sql_type .integer = "INT64" :=
  ⟨(type_converter_pure_and_overrides .string).2.1 rfl,
   (type_converter_pure_and_overrides .integer).2.2 rfl⟩

/-- C8: credential resolution follows the fixed order — a truthy
configured credentials-file path is loaded via the service-account file
loader, otherwise ambient default discovery is used — the first
resolution caches its result, and every call with a populated cache
returns the cached value without touching any credential source. -/
theorem get_credentials_resolution_and_caching (env : CredEnv)
    (credentials_path : Option String) :
    (∀ p, credentials_path = some p → ¬ p = "" →
       get_credentials env credentials_path none =
         (env.from_service_account_file p,
          some (env.from_service_account_file p), true)) ∧
    (path_truthy credentials_path = false →
       get_credentials env credentials_path none =
         (env.google_auth_default, some env.google_auth_default, true)) ∧
    (∀ c, get_credentials env credentials_path (some c) = (c, some c, false)) := by
  refine ⟨?_, ?_, ?_⟩
  · intro p hp hne
    subst hp
    simp [get_credentials, path_truthy, hne]
  · intro h
    simp [get_credentials, h]
  · intro c
    rfl

/-- Witness for C8: with a configured path the file loader's value is
returned and cached; a second call with that cache returns it with no
source touched. -/
theorem get_credentials_resolution_and_caching_witness :
    (get_credentials ⟨fun _ => 5, 9⟩ (some "/tmp/sa.json") none = (5, some 5, true)) ∧
    (get_credentials ⟨fun _ => 5, 9⟩ (some "/tmp/sa.json") (some 5) = (5, some 5, false)) :=
  ⟨(get_credentials_resolution_and_caching ⟨fun _ => 5, 9⟩ (some "/tmp/sa.json")).1
      "/tmp/sa.json" rfl (by decide),
   (get_credentials_resolution_and_caching ⟨fun _ => 5, 9⟩ (some "/tmp/sa.json")).2.2 5⟩

/-- Length of a flat-map producing two events per element. -/
theorem flatMap_pair_length {α β : Type} (L : List α) (u v : α → β) :
    (L.flatMap fun a => [u a, v a]).length = 2 * L.length := by
  induction L with
  | nil => rfl
  | cons a l ih =>
    simp [List.flatMap_cons, ih]
    omega

/-- Even positions of a two-events-per-element flat-map hold the first
event of the corresponding element. -/
theorem flatMap_pair_getElem_even {α β : Type} (L : List α) (u v : α → β)
    (k : Nat) :
    (L.flatMap fun a => [u a, v a])[2 * k]? = L[k]?.map u := by
  induction L generalizing k with
  | nil => simp
  | cons a l ih =>
    cases k with
    | zero => simp [List.flatMap_cons]
    | succ k =>
      have h2 : 2 * (k + 1) = 2 * k + 1 + 1 := by omega
      simp [List.flatMap_cons, h2, ih]

/-- Odd positions of a two-events-per-element flat-map hold the second
event of the corresponding element. -/
theorem flatMap_pair_getElem_odd {α β : Type} (L : List α) (u v : α → β)
    (k : Nat) :
    (L.flatMap fun a => [u a, v a])[2 * k + 1]? = L[k]?.map v := by
  induction L generalizing k with
  | nil => simp
  | cons a l ih =>
    cases k with
    | zero => simp [List.flatMap_cons]
    | succ k =>
      have h2 : 2 * (k + 1) + 1 = 2 * k + 1 + 1 + 1 := by omega
      simp [List.flatMap_cons, h2, ih]

/-- C6: the staging table is created first (the trace's head is the
create-table operation, so creation precedes every load), and the column
schema handed to every submitted bulk-load job is exactly the type
converter applied to the stream's known column descriptors — for every
possible file list, whatever the file contents, so the schema is never
inferred from file content. -/
theorem write_files_schema_from_descriptors
    (project_name dataset_name stream_name batch_id : String)
    (columns : List (String × ColumnTypeDescriptor)) (files : List FileHandle) :
    (write_files_to_new_table project_name dataset_name columns files
        stream_name batch_id).2.head? =
      some (.createTable (project_name ++ "." ++ dataset_name ++ "." ++
        create_table_for_loading stream_name batch_id)) ∧
    ∀ e ∈ (write_files_to_new_table project_name dataset_name columns files
        stream_name batch_id).2,
      ∀ tid f fmt sch, e = LoadEvent.submitLoad tid f fmt sch →
        sch = get_sql_column_definitions columns := by
  constructor
  · rfl
  · intro e he tid f fmt sch hef
    subst hef
    simp only [write_files_to_new_table, List.mem_cons, List.mem_flatMap,
               List.mem_singleton] at he
    rcases he with he | ⟨f', _, he | he | he⟩
    · cases he
    · cases he
      rfl
    · cases he
    · cases he

/-- Witness for C6: on a one-file batch the submitted job's schema equals
the converted column definitions. -/
theorem write_files_schema_from_descriptors_witness :
    [("id", "INT64")] =
      get_sql_column_definitions [("id", ColumnTypeDescriptor.integer)] :=
  (write_files_schema_from_descriptors "p" "d" "users" "b1"
      [("id", ColumnTypeDescriptor.integer)] [⟨"f1", "{}"⟩]).2
    (LoadEvent.submitLoad "p.d.users_airbyte_tmp_b1" ⟨"f1", "{}"⟩
      "NEWLINE_DELIMITED_JSON" [("id", "INT64")])
    (by decide)
    "p.d.users_airbyte_tmp_b1" ⟨"f1", "{}"⟩ "NEWLINE_DELIMITED_JSON"
    [("id", "INT64")] rfl

/-- C7: the trace of `_write_files_to_new_table` has length
`2·|files| + 1`, and for each `k` the `k`-th file's load is submitted at
position `2k+1` and awaited at position `2k+2` — so submissions follow
the supplied file order, each file's job is waited to a terminal state
before the next file is submitted (position `2k+2 < 2(k+1)+1`), and the
function returns (the trace ends) only after the last file's wait. -/
theorem write_files_sequential_loads
    (project_name dataset_name stream_name batch_id : String)
    (columns : List (String × ColumnTypeDescriptor)) (files : List FileHandle) :
    (write_files_to_new_table project_name dataset_name columns files
        stream_name batch_id).2.length = 2 * files.length + 1 ∧
    ∀ k f, files[k]? = some f →
      (write_files_to_new_table project_name dataset_name columns files
          stream_name batch_id).2[2 * k + 1]? =
        some (.submitLoad (project_name ++ "." ++ dataset_name ++ "." ++
            create_table_for_loading stream_name batch_id) f
          "NEWLINE_DELIMITED_JSON" (get_sql_column_definitions columns)) ∧
      (write_files_to_new_table project_name dataset_name columns files
          stream_name batch_id).2[2 * k + 2]? = some (.waitResult f) := by
  constructor
  · simp only [write_files_to_new_table, List.length_cons, flatMap_pair_length]
  · intro k f hk
    refine ⟨?_, ?_⟩
    · simp only [write_files_to_new_table, List.getElem?_cons_succ,
                 flatMap_pair_getElem_even, hk, Option.map_some']
    · have h2 : 2 * k + 2 = 2 * k + 1 + 1 := by omega
      simp only [write_files_to_new_table, h2, List.getElem?_cons_succ,
                 flatMap_pair_getElem_odd, hk, Option.map_some']

/-- Witness for C7 on a concrete two-file batch. -/
theorem write_files_sequential_loads_witness :
    (write_files_to_new_table "p" "d" [("id", ColumnTypeDescriptor.integer)]
        [⟨"f1", "{}"⟩, ⟨"f2", "{}"⟩] "users" "b1").2[2 * 1 + 1]? =
      some (.submitLoad ("p" ++ "." ++ "d" ++ "." ++
          create_table_for_loading "users" "b1") ⟨"f2", "{}"⟩
        "NEWLINE_DELIMITED_JSON"
        (get_sql_column_definitions [("id", ColumnTypeDescriptor.integer)])) ∧
    (write_files_to_new_table "p" "d" [("id", ColumnTypeDescriptor.integer)]
        [⟨"f1", "{}"⟩, ⟨"f2", "{}"⟩] "users" "b1").2[2 * 1 + 2]? =
      some (.waitResult ⟨"f2", "{}"⟩) :=
  (write_files_sequential_loads "p" "d" "users" "b1"
      [("id", ColumnTypeDescriptor.integer)] [⟨"f1", "{}"⟩, ⟨"f2", "{}"⟩]).2
    1 ⟨"f2", "{}"⟩ rfl

/-- Replacing the first occurrence of a nonempty pattern that the string
starts with, by the empty string, removes exactly that leading pattern. -/
theorem replace_first_of_leading (old suffix : List Char) (h : old ≠ []) :
    replace_first [] old (old ++ suffix) = suffix := by
  cases old with
  | nil => exact absurd rfl h
  | cons c o =>
    have hp : (c :: o).isPrefixOf (c :: (o ++ suffix)) = true := by
      rw [List.isPrefixOf_iff_prefix]
      exact ⟨suffix, by simp⟩
    show replace_first [] (c :: o) (c :: (o ++ suffix)) = suffix
    rw [replace_first, if_pos hp]
    simp

/-- C9: `_get_tables_list` strips the `{schema_name}.` prefix from every
schema-qualified name the warehouse returned and passes every unqualified
name through unchanged — it equals the plain strip-the-leading-prefix map
over the returned names. -/
theorem get_tables_list_strips_schema (schema_name : List Char)
    (tables : List (List Char)) :
    get_tables_list schema_name tables =
      tables.map fun table =>
        if (schema_name ++ ['.']).isPrefixOf table then
          table.drop (schema_name ++ ['.']).length
        else table := by
  unfold get_tables_list
  refine List.map_congr_left ?_
  intro table _
  by_cases hp : (schema_name ++ ['.']).isPrefixOf table = true
  · have hpre : (schema_name ++ ['.']) <+: table :=
      List.isPrefixOf_iff_prefix.mp hp
    obtain ⟨suffix, rfl⟩ := hpre
    rw [if_pos hp, if_pos hp,
        replace_first_of_leading _ _ (by simp), List.drop_left]
  · rw [if_neg hp, if_neg hp]

/-- C10: identifier quoting lowercases the identifier and wraps it in
backticks, and two identifiers that differ only in letter case quote to
the identical string. -/
theorem quote_identifier_lowercase_backticks (a b : List Char)
    (h : differ_only_in_case a b) :
    quote_identifier a = '`' :: a.map Char.toLower ++ ['`'] ∧
    quote_identifier a = quote_identifier b := by
  refine ⟨rfl, ?_⟩
  have hmap : a.map Char.toLower = b.map Char.toLower := by
    induction h with
    | nil => rfl
    | cons hcd _ ih => simp [hcd, ih]
  simp [quote_identifier, py_lower, hmap]

/-- Witness for C10: `USERS` and `users` quote to the same string. -/
theorem quote_identifier_lowercase_backticks_witness :
    quote_identifier ['U', 'S', 'E', 'R', 'S'] =
      '`' :: ['U', 'S', 'E', 'R', 'S'].map Char.toLower ++ ['`'] ∧
    quote_identifier ['U', 'S', 'E', 'R', 'S'] =
      quote_identifier ['u', 's', 'e', 'r', 's'] :=
  quote_identifier_lowercase_backticks ['U', 'S', 'E', 'R', 'S']
    ['u', 's', 'e', 'r', 's']
    (by
      refine List.Forall₂.cons (by decide) ?_
      refine List.Forall₂.cons (by decide) ?_
      refine List.Forall₂.cons (by decide) ?_
      refine List.Forall₂.cons (by decide) ?_
      exact List.Forall₂.cons (by decide) List.Forall₂.nil)

end BigQueryProc
